import Mathlib

set_option autoImplicit false

/-!
Shallow embedding of the `rlm_repl` REPL subprocess (deferred operations,
sandbox, JSON-RPC server) from `src/rlm-core/python/rlm_repl/`:
`deferred.py`, `sandbox.py`, `helpers.py`, `main.py`.  Python values are
modelled by `PyVal`; Python dicts by insertion-ordered association lists
with unique keys; raising an exception by explicit outcome types.
-/

/-- Model of a Python runtime value as the sandbox manipulates them.
`vother` stands for any object of a type outside the JSON-like core
(it records only the rendering Python's `str` would give it). -/
inductive PyVal where
  | vnone
  | vbool (b : Bool)
  | vint (n : Int)
  | vfloat (q : Rat)
  | vstr (s : String)
  | vlist (xs : List PyVal)
  | vdict (kvs : List (String × PyVal))
  | vother (typeName : String)

/-- Python `isinstance(v, str)`. -/
def pyIsInstStr : PyVal → Bool
  | .vstr _ => true
  | _ => false

/-- Python `isinstance(v, bool)`. -/
def pyIsInstBool : PyVal → Bool
  | .vbool _ => true
  | _ => false

/-- Python `isinstance(v, int)`: true for `bool` as well, since Python's
`bool` is a subclass of `int`. -/
def pyIsInstInt : PyVal → Bool
  | .vbool _ => true
  | .vint _ => true
  | _ => false

/-- Python `isinstance(v, (int, float))` (again true for `bool`). -/
def pyIsInstIntOrFloat : PyVal → Bool
  | .vbool _ => true
  | .vint _ => true
  | .vfloat _ => true
  | _ => false

/-- Python `isinstance(v, list)`. -/
def pyIsInstList : PyVal → Bool
  | .vlist _ => true
  | _ => false

/-- Python `isinstance(v, dict)`. -/
def pyIsInstDict : PyVal → Bool
  | .vdict _ => true
  | _ => false

/-- Python truthiness `bool(v)` on the modelled values. -/
def pyTruthy : PyVal → Bool
  | .vnone => false
  | .vbool b => b
  | .vint n => n != 0
  | .vfloat q => q != 0
  | .vstr s => s.length != 0
  | .vlist xs => !xs.isEmpty
  | .vdict kvs => !kvs.isEmpty
  | .vother _ => true

/-- Python `len(v)`: `none` models a raised `TypeError` (no length). -/
def pyLen : PyVal → Option Nat
  | .vstr s => some s.length
  | .vlist xs => some xs.length
  | .vdict kvs => some kvs.length
  | _ => none

/-- Python `iter(v)` as the list of produced elements: `none` models a
raised `TypeError` (not iterable); a dict iterates over its keys. -/
def pyIter : PyVal → Option (List PyVal)
  | .vstr s => some (s.toList.map fun c => .vstr (String.mk [c]))
  | .vlist xs => some xs
  | .vdict kvs => some (kvs.map fun kv => .vstr kv.1)
  | _ => none

/-- Model of Python's `repr` on the modelled values (the float and object
renderings abstract Python's exact formatting, which no claim depends on). -/
def pyRepr : PyVal → String
  | .vnone => "None"
  | .vbool b => if b then "True" else "False"
  | .vint n => toString n
  | .vfloat q => toString q
  | .vstr s => "'" ++ s ++ "'"
  | .vlist xs =>
      "[" ++ String.intercalate ", " (xs.attach.map fun x => pyRepr x.1) ++ "]"
  | .vdict kvs =>
      "\x7b" ++
        String.intercalate ", "
          (kvs.attach.map fun kv => "'" ++ kv.1.1 ++ "': " ++ pyRepr kv.1.2) ++
      "\x7d"
  | .vother t => "<" ++ t ++ " object>"
termination_by v => sizeOf v
decreasing_by
  · have := List.sizeOf_lt_of_mem x.2
    simp only [PyVal.vlist.sizeOf_spec]
    omega
  · have h1 := List.sizeOf_lt_of_mem kv.2
    have h2 : sizeOf kv.1.2 < sizeOf kv.1 := by
      obtain ⟨⟨a, b⟩, hmem⟩ := kv
      simp [Prod.mk.sizeOf_spec]
    simp only [PyVal.vdict.sizeOf_spec]
    omega

/-- Model of Python's `str` on the modelled values: identity on strings,
`repr`-like elsewhere (contents of containers render with `repr`). -/
def pyStr : PyVal → String
  | .vstr s => s
  | v => pyRepr v

/-- Python `type(v).__name__`, as `list_variables` reports it. -/
def pyTypeName : PyVal → String
  | .vnone => "NoneType"
  | .vbool _ => "bool"
  | .vint _ => "int"
  | .vfloat _ => "float"
  | .vstr _ => "str"
  | .vlist _ => "list"
  | .vdict _ => "dict"
  | .vother t => t

/-- Lookup in a Python dict modelled as an insertion-ordered association
list with unique keys: the first binding of the key. -/
def dictGet {α : Type} : List (String × α) → String → Option α
  | [], _ => none
  | (k, v) :: rest, key => if k = key then some v else dictGet rest key

/-- Python dict assignment `d[key] = v`: replaces the binding in place if
the key is present, appends it otherwise (insertion order preserved). -/
def dictSet {α : Type} : List (String × α) → String → α → List (String × α)
  | [], key, v => [(key, v)]
  | (k, w) :: rest, key, v =>
      if k = key then (key, v) :: rest else (k, w) :: dictSet rest key v

/-- Python dict merge as in the source's `\x7b**globals, **locals\x7d`:
start from the first dict and assign every binding of the second. -/
def dictMerge {α : Type} (g l : List (String × α)) : List (String × α) :=
  l.foldl (fun acc kv => dictSet acc kv.1 kv.2) g

/-- Models `_serialize_submit_value` from sandbox.py: identity on the
JSON-like core, recursing through lists and dict values; an object outside
that core falls through to its `str` rendering. -/
def serializeSubmitValue : PyVal → PyVal
  | .vnone => .vnone
  | .vbool b => .vbool b
  | .vint n => .vint n
  | .vfloat q => .vfloat q
  | .vstr s => .vstr s
  | .vlist xs => .vlist (xs.attach.map fun x => serializeSubmitValue x.1)
  | .vdict kvs => .vdict (kvs.attach.map fun kv => (kv.1.1, serializeSubmitValue kv.1.2))
  | .vother t => .vstr (pyStr (.vother t))
termination_by v => sizeOf v
decreasing_by
  · have := List.sizeOf_lt_of_mem x.2
    simp only [PyVal.vlist.sizeOf_spec]
    omega
  · have h1 := List.sizeOf_lt_of_mem kv.2
    have h2 : sizeOf kv.1.2 < sizeOf kv.1 := by
      obtain ⟨⟨a, b⟩, hmem⟩ := kv
      simp [Prod.mk.sizeOf_spec]
    simp only [PyVal.vdict.sizeOf_spec]
    omega

/-- Models `_serialize_result` from main.py, whose branches coincide with
`_serialize_submit_value` on the modelled values. -/
def serialize_result (v : PyVal) : PyVal :=
  serializeSubmitValue v

/-- Models `_preview_value` from sandbox.py (`limit` defaults to 100). -/
def preview_value (v : PyVal) (limit : Nat := 100) : String :=
  let text := pyRepr v
  if text.length ≤ limit then text else text.take (limit - 3) ++ "..."

/-- Models `_type_name` from sandbox.py: the normalized type name used in
validation errors (the `bool` test precedes the `int` test). -/
def type_name : PyVal → String
  | .vnone => "null"
  | .vbool _ => "boolean"
  | .vint _ => "integer"
  | .vfloat _ => "number"
  | .vstr _ => "string"
  | .vlist _ => "array"
  | .vdict _ => "object"
  | .vother t => t

/-- Models `OperationState` from deferred.py. -/
inductive OperationState where
  | pending
  | resolved
  | failed
  deriving DecidableEq

/-- Rendering of an `OperationState` in error messages (the `.value` of the
str-mixin enum). -/
def OperationState.value : OperationState → String
  | .pending => "pending"
  | .resolved => "resolved"
  | .failed => "failed"

/-- Models `DeferredOperation` from deferred.py.  `operation_type` is kept
as its string value; `result` defaults to `None` and `error` to null. -/
structure DeferredOperation where
  id : String
  operation_type : String := "llm_call"
  params : List (String × PyVal) := []
  state : OperationState := .pending
  result : PyVal := .vnone
  error : Option String := none

/-- Outcome of `DeferredOperation.get`: a returned value, a raised
`PendingOperationError` carrying the operation id, or a raised
`DeferredOperationError` carrying a message. -/
inductive GetOutcome where
  | ok (v : PyVal)
  | pendingSignal (opId : String)
  | failedSignal (msg : String)

/-- Models `DeferredOperation.get` (deferred.py lines 84-95): raise the
pending signal when pending, a failure error when failed (Python's
`self.error or "Operation failed"` treats null and the empty string
alike), and return the stored result otherwise. -/
def DeferredOperation.get (op : DeferredOperation) : GetOutcome :=
  if op.state = .pending then .pendingSignal op.id
  else if op.state = .failed then
    .failedSignal
      (match op.error with
        | none => "Operation failed"
        | some e => if e = "" then "Operation failed" else e)
  else .ok op.result

/-- Models `DeferredOperation.resolve` (deferred.py lines 70-75): a
`RuntimeError` message on the left when the state is not pending. -/
def DeferredOperation.resolve (op : DeferredOperation) (result : PyVal) :
    Except String DeferredOperation :=
  if op.state ≠ .pending then
    .error ("Cannot resolve operation in state " ++ op.state.value)
  else
    .ok { op with result := result, state := .resolved }

/-- Models `DeferredOperation.fail` (deferred.py lines 77-82). -/
def DeferredOperation.fail (op : DeferredOperation) (error : String) :
    Except String DeferredOperation :=
  if op.state ≠ .pending then
    .error ("Cannot fail operation in state " ++ op.state.value)
  else
    .ok { op with error := some error, state := .failed }

/-- Outcome of a probe dunder on a `DeferredOperation`: a value, a raised
`PendingOperationError`, or a raised `TypeError` from the underlying
result. -/
inductive ProbeResult (α : Type) where
  | ok (a : α)
  | raisesPending (opId : String)
  | raisesTypeError
  deriving DecidableEq

/-- Models `DeferredOperation.__str__` (deferred.py lines 101-104): the
`str` of the result when resolved, a placeholder built from the first 8
characters of the id otherwise.  It never raises. -/
def DeferredOperation.strProbe (op : DeferredOperation) : ProbeResult String :=
  if op.state = .resolved then .ok (pyStr op.result)
  else .ok ("<Deferred:" ++ op.id.take 8 ++ ">")

/-- Models `DeferredOperation.__bool__` (deferred.py lines 106-109):
`bool(result)` when resolved, a raised `PendingOperationError` otherwise. -/
def DeferredOperation.boolProbe (op : DeferredOperation) : ProbeResult Bool :=
  if op.state = .resolved then .ok (pyTruthy op.result)
  else .raisesPending op.id

/-- Models `DeferredOperation.__len__` (deferred.py lines 111-114). -/
def DeferredOperation.lenProbe (op : DeferredOperation) : ProbeResult Nat :=
  if op.state = .resolved then
    match pyLen op.result with
    | some n => .ok n
    | none => .raisesTypeError
  else .raisesPending op.id

/-- Models `DeferredOperation.__iter__` (deferred.py lines 116-119). -/
def DeferredOperation.iterProbe (op : DeferredOperation) :
    ProbeResult (List PyVal) :=
  if op.state = .resolved then
    match pyIter op.result with
    | some xs => .ok xs
    | none => .raisesTypeError
  else .raisesPending op.id

/-- Error raised by a `DeferredRegistry` method: Python's `KeyError` on an
unknown id, or the `RuntimeError` propagated from the operation. -/
inductive RegError where
  | keyError (msg : String)
  | runtimeError (msg : String)
  deriving DecidableEq

/-- Models `DeferredRegistry` from deferred.py: its `_operations` dict,
keyed by operation id. -/
structure DeferredRegistry where
  operations : List (String × DeferredOperation)

/-- Models `DeferredRegistry.get`: dict lookup by id. -/
def DeferredRegistry.lookup (r : DeferredRegistry) (opId : String) :
    Option DeferredOperation :=
  dictGet r.operations opId

/-- Models `DeferredRegistry.resolve` (deferred.py lines 170-175):
`KeyError` for an unknown id, else the operation's own `resolve`, whose
update lands back in the dict (mutation in place). -/
def DeferredRegistry.resolve (r : DeferredRegistry) (opId : String)
    (result : PyVal) : Except RegError DeferredRegistry :=
  match r.lookup opId with
  | none => .error (.keyError ("Unknown operation: " ++ opId))
  | some op =>
      match op.resolve result with
      | .error m => .error (.runtimeError m)
      | .ok op' => .ok ⟨dictSet r.operations opId op'⟩

/-- Models `DeferredRegistry.fail` (deferred.py lines 177-182). -/
def DeferredRegistry.fail (r : DeferredRegistry) (opId : String)
    (error : String) : Except RegError DeferredRegistry :=
  match r.lookup opId with
  | none => .error (.keyError ("Unknown operation: " ++ opId))
  | some op =>
      match op.fail error with
      | .error m => .error (.runtimeError m)
      | .ok op' => .ok ⟨dictSet r.operations opId op'⟩

/-- Models `DeferredRegistry.pending_ids` (deferred.py lines 184-186). -/
def DeferredRegistry.pending_ids (r : DeferredRegistry) : List String :=
  ((r.operations.map Prod.snd).filter fun op =>
    decide (op.state = .pending)).map (fun op => op.id)

/-- Models the `field_type` discriminated union consumed by
`_validate_field_value` (sandbox.py): the `object` variant carries its
field specs as (name, field type, required) triples. -/
inductive FieldType where
  | stringT
  | integerT
  | floatT
  | booleanT
  | enumT (allowed : List String)
  | listT (inner : FieldType)
  | objectT (fields : List (String × FieldType × Bool))
  | customT (label : String)

/-- The `type` tag string of a `FieldType`, as validation error messages
report it. -/
def FieldType.tag : FieldType → String
  | .stringT => "string"
  | .integerT => "integer"
  | .floatT => "float"
  | .booleanT => "boolean"
  | .enumT _ => "enum"
  | .listT _ => "list"
  | .objectT _ => "object"
  | .customT _ => "custom"

/-- Models the error records `_validate_submit_outputs`,
`_validate_field_value` and `_submit` append (sandbox.py). -/
inductive VError where
  | missingField (fieldPath : String) (expectedType : FieldType)
  | typeMismatch (fieldPath : String) (expected : FieldType) (got : String)
      (valuePreview : String)
  | enumInvalid (fieldPath : String) (value : String) (allowed : List String)
  | multipleSubmits (count : Nat)
  | noSignatureRegistered
  | validationFailed (fieldPath : String) (reason : String)

/-- Models `_validate_field_value` together with `_append_type_mismatch`
(sandbox.py lines 457-571), returning the errors it appends.  The source's
trailing unknown-tag branch has no counterpart because `FieldType`
enumerates exactly the known tags. -/
def validateFieldValue : String → FieldType → PyVal → List VError
  | fieldName, .stringT, v =>
      if pyIsInstStr v then []
      else [.typeMismatch fieldName .stringT (type_name v) (preview_value v)]
  | fieldName, .integerT, v =>
      if !pyIsInstInt v || pyIsInstBool v then
        [.typeMismatch fieldName .integerT (type_name v) (preview_value v)]
      else []
  | fieldName, .floatT, v =>
      if !pyIsInstIntOrFloat v || pyIsInstBool v then
        [.typeMismatch fieldName .floatT (type_name v) (preview_value v)]
      else []
  | fieldName, .booleanT, v =>
      if pyIsInstBool v then []
      else [.typeMismatch fieldName .booleanT (type_name v) (preview_value v)]
  | fieldName, .enumT allowed, v =>
      match v with
      | .vstr s =>
          if s ∈ allowed then [] else [.enumInvalid fieldName s allowed]
      | w => [.typeMismatch fieldName (.enumT allowed) (type_name w) (preview_value w)]
  | fieldName, .listT inner, v =>
      match v with
      | .vlist xs =>
          (xs.enum.map fun iv =>
            validateFieldValue (fieldName ++ "[" ++ toString iv.1 ++ "]") inner iv.2).flatten
      | w => [.typeMismatch fieldName (.listT inner) (type_name w) (preview_value w)]
  | fieldName, .objectT fields, v =>
      match v with
      | .vdict kvs =>
          (fields.attach.map fun fs =>
            let nestedPath :=
              if fs.1.1 = "" then fieldName else fieldName ++ "." ++ fs.1.1
            match dictGet kvs fs.1.1 with
            | none =>
                if fs.1.2.2 then [VError.missingField nestedPath fs.1.2.1] else []
            | some nv => validateFieldValue nestedPath fs.1.2.1 nv).flatten
      | w => [.typeMismatch fieldName (.objectT fields) (type_name w) (preview_value w)]
  | _, .customT _, _ => []
termination_by _ ft _ => sizeOf ft
decreasing_by
  · simp only [FieldType.listT.sizeOf_spec]
    omega
  · have h1 := List.sizeOf_lt_of_mem fs.2
    have h2 : sizeOf fs.1.2.1 < sizeOf fs.1 := by
      obtain ⟨⟨a, b, c⟩, hm⟩ := fs
      simp [Prod.mk.sizeOf_spec]
      omega
    simp only [FieldType.objectT.sizeOf_spec]
    omega

/-- Models `_validate_submit_outputs` (sandbox.py lines 424-455) over a
registered signature's output field specs. -/
def validateSubmitOutputs (outputFields : List (String × FieldType × Bool))
    (outputs : PyVal) : List VError :=
  match outputs with
  | .vdict kvs =>
      (outputFields.map fun fs =>
        match dictGet kvs fs.1 with
        | none => if fs.2.2 then [VError.missingField fs.1 fs.2.1] else []
        | some v => validateFieldValue fs.1 fs.2.1 v).flatten
  | _ => [.validationFailed "" "SUBMIT outputs must be an object"]

/-- Models the `_submit_result` payload (sandbox.py `_submit`): either a
validation error bundle with the serialized original outputs, or a
success bundle with the serialized outputs. -/
inductive SubmitResult where
  | validationError (errors : List VError) (originalOutputs : PyVal)
  | success (outputs : PyVal)

/-- Mutable state of a `Sandbox` (sandbox.py): the `locals` and `globals`
namespaces restricted to user-visible Python values, the per-execute
SUBMIT bookkeeping, and the registered signature's output field specs. -/
structure SandboxState where
  locals : List (String × PyVal) := []
  globals : List (String × PyVal) := []
  submitCount : Nat := 0
  submitResult : Option SubmitResult := none
  signatureRegistration : Option (List (String × FieldType × Bool)) := none

/-- Models `Sandbox._reset_submit_state` (sandbox.py lines 380-382). -/
def Sandbox.reset_submit_state (st : SandboxState) : SandboxState :=
  { st with submitResult := none, submitCount := 0 }

/-- Models `Sandbox._submit` (sandbox.py lines 384-422): serialize the
outputs, bump the per-execute count, record the appropriate
`_submit_result`, and raise `SubmitSignal` (the raise is implicit: every
call ends the surrounding evaluation, which `runSteps` encodes at its
`submitCall` step). -/
def Sandbox.submit (st : SandboxState) (outputs : PyVal) : SandboxState :=
  let serialized := serializeSubmitValue outputs
  let count := st.submitCount + 1
  if count > 1 then
    { st with submitCount := count,
              submitResult := some (.validationError [.multipleSubmits count] serialized) }
  else
    match st.signatureRegistration with
    | none =>
        { st with submitCount := count,
                  submitResult := some (.validationError [.noSignatureRegistered] serialized) }
    | some sig =>
        let errors := validateSubmitOutputs sig serialized
        if errors.isEmpty then
          { st with submitCount := count, submitResult := some (.success serialized) }
        else
          { st with submitCount := count,
                    submitResult := some (.validationError errors serialized) }

/-- The fixed allow-list of `_guarded_import` (sandbox.py lines 229-250). -/
def allowed_modules : List String :=
  ["math", "re", "json", "collections", "itertools", "functools", "operator",
   "string", "textwrap", "datetime", "decimal", "fractions", "statistics",
   "random", "copy", "pprint", "dataclasses", "typing", "enum", "abc"]

/-- Models `_guarded_import` (sandbox.py lines 221-255): a `SandboxError`
message on the left for any module outside the allow-list. -/
def guardedImport (name : String) : Except String Unit :=
  if name ∈ allowed_modules then .ok ()
  else .error ("Import of '" ++ name ++ "' is not allowed")

/-- A step of sandboxed code, at the granularity `Sandbox.execute`
observes: an assignment into the namespace, output written to a captured
stream, a `get()` on a deferred operation held by the code, an `import`
routed through `_guarded_import`, and a `SUBMIT(...)` call — either plain
(its `SubmitSignal` ends the evaluation) or wrapped in a bare
`try/except` that swallows the signal so evaluation continues. -/
inductive Step where
  | assign (name : String) (v : PyVal)
  | printOut (s : String)
  | printErr (s : String)
  | getOp (op : DeferredOperation)
  | importMod (name : String)
  | submitCall (v : PyVal)
  | submitCaught (v : PyVal)

/-- Outcome of `Sandbox.execute` (sandbox.py lines 573-623).  The `ok`
case is the returned `(result, stdout, stderr)` triple; the raised cases
record the exception that propagated, the stream contents captured up to
that point (they live only in the method's local `StringIO` buffers), and
the sandbox state, whose in-place mutations survive the raise. -/
inductive SandboxExecResult where
  | ok (result : Option PyVal) (stdout stderr : String) (st : SandboxState)
  | raisedPending (opId : String) (capturedOut capturedErr : String) (st : SandboxState)
  | raisedSandbox (msg : String) (capturedOut capturedErr : String) (st : SandboxState)
  | raisedOther (excType msg : String) (capturedOut capturedErr : String) (st : SandboxState)

/-- One pass of the `exec` inside `Sandbox.execute`: run the steps left to
right, threading the namespace and the captured streams.  A pending
`get()` raises the pending signal; a disallowed import raises
`SandboxError`; a `get()` on a failed operation raises
`DeferredOperationError`; a plain `SUBMIT` records its result and ends
the evaluation (its `SubmitSignal` is caught by `Sandbox.execute`, which
then returns normally with `locals.get("_")`). -/
def runSteps (st : SandboxState) (out err : String) : List Step → SandboxExecResult
  | [] => .ok (dictGet st.locals "_") out err st
  | .assign n v :: rest =>
      runSteps { st with locals := dictSet st.locals n v } out err rest
  | .printOut s :: rest => runSteps st (out ++ s) err rest
  | .printErr s :: rest => runSteps st out (err ++ s) rest
  | .getOp op :: rest =>
      match op.get with
      | .pendingSignal i => .raisedPending i out err st
      | .failedSignal m => .raisedOther "DeferredOperationError" m out err st
      | .ok _ => runSteps st out err rest
  | .importMod n :: rest =>
      match guardedImport n with
      | .error m => .raisedSandbox m out err st
      | .ok _ => runSteps st out err rest
  | .submitCall v :: _ =>
      let st' := Sandbox.submit st v
      .ok (dictGet st'.locals "_") out err st'
  | .submitCaught v :: rest => runSteps (Sandbox.submit st v) out err rest

/-- Models `Sandbox.execute` (sandbox.py lines 573-623): reset the SUBMIT
state, then run the code with freshly captured streams. -/
def Sandbox.execute (st : SandboxState) (code : List Step) : SandboxExecResult :=
  runSteps (Sandbox.reset_submit_state st) "" "" code

/-- Python `s.startswith(pre)`. -/
def pyStartswith (s pre : String) : Bool :=
  pre.toList.isPrefixOf s.toList

/-- Models `Sandbox.set_variable` (sandbox.py lines 625-630): reject any
name that begins with an underscore other than `_` itself (raising before
any namespace mutation), else bind the name in both `locals` and
`globals`. -/
def Sandbox.set_variable (st : SandboxState) (name : String) (value : PyVal) :
    Except String SandboxState :=
  if pyStartswith name "_" && name != "_" then
    .error ("Cannot set variable with name '" ++ name ++ "'")
  else
    .ok { st with locals := dictSet st.locals name value,
                  globals := dictSet st.globals name value }

/-- Models `Sandbox.get_variable` (sandbox.py lines 632-638): locals
first, then globals, else a `KeyError` message. -/
def Sandbox.get_variable (st : SandboxState) (name : String) :
    Except String PyVal :=
  match dictGet st.locals name with
  | some v => .ok v
  | none =>
      match dictGet st.globals name with
      | some v => .ok v
      | none => .error ("Variable '" ++ name ++ "' not found")

/-- Models `Sandbox.has_variable` (sandbox.py lines 640-642). -/
def Sandbox.has_variable (st : SandboxState) (name : String) : Bool :=
  (dictGet st.locals name).isSome || (dictGet st.globals name).isSome

/-- The `skip` set of `Sandbox.list_variables` (sandbox.py lines 646-674):
builtin infrastructure names and the helper bindings. -/
def list_variables_skip : List String :=
  ["__builtins__", "_getattr_", "_getitem_", "_getiter_",
   "_iter_unpack_sequence_", "_write_", "__import__", "DeferredOperation",
   "peek", "search", "find_relevant", "summarize", "llm", "llm_batch",
   "llm_query_batched", "map_reduce", "verify_claim", "audit_reasoning",
   "count_tokens", "truncate", "extract_code_blocks", "SUBMIT"]

/-- Models `Sandbox.list_variables` (sandbox.py lines 644-680): merge
globals and locals (locals winning) and keep name ↦ type-name for every
name neither in the skip set nor starting with an underscore. -/
def Sandbox.list_variables (st : SandboxState) : List (String × String) :=
  (dictMerge st.globals st.locals).filterMap fun kv =>
    if list_variables_skip.contains kv.1 || pyStartswith kv.1 "_" then none
    else some (kv.1, pyTypeName kv.2)

/-- Models `ReplServer._submit_error_message` (main.py lines 232-261). -/
def submit_error_message (errors : List VError) : String :=
  match errors with
  | [] => "SUBMIT validation failed"
  | first :: _ =>
      match first with
      | .noSignatureRegistered => "SUBMIT called but no signature was registered"
      | .missingField f _ => "SUBMIT missing required field '" ++ f ++ "'"
      | .typeMismatch f expected got _ =>
          "SUBMIT field '" ++ f ++ "' expected " ++ expected.tag ++ ", got " ++ got
      | .multipleSubmits c =>
          "SUBMIT called multiple times (" ++ toString c ++ ")"
      | .enumInvalid f v _ =>
          "SUBMIT field '" ++ f ++ "' has invalid enum value '" ++ v ++ "'"
      | .validationFailed _ reason => "SUBMIT validation failed: " ++ reason

/-- Models `ExecuteResponse` from protocol.py (`execution_time_ms`, a
wall-clock measurement, is outside the embedding). -/
structure ExecuteResponse where
  success : Bool
  result : Option PyVal := none
  stdout : String := ""
  stderr : String := ""
  error : Option String := none
  error_type : Option String := none
  pending_operations : List String := []
  submit_result : Option SubmitResult := none

/-- Models `ReplServer._execute` (main.py lines 94-164): install the
server's signature registration on the sandbox, run the code, and fold
the outcome into an `ExecuteResponse`.  Every exception branch of the
source replaces the captured streams: the pending, compilation and
sandbox branches with empty strings, the generic branch with the
formatted traceback (abstracted here as a string built from the
message).  `submit_result` is consumed from the sandbox only on the
normal return path; `pending_operations` is always the registry's full
current pending id list. -/
def ReplServer.executeMethod (reg : DeferredRegistry)
    (serverSig : Option (List (String × FieldType × Bool)))
    (st : SandboxState) (code : List Step) : ExecuteResponse × SandboxState :=
  let st0 := { st with signatureRegistration := serverSig }
  match Sandbox.execute st0 code with
  | .ok result out err st' =>
      let sub := st'.submitResult
      let st1 := { st' with submitResult := none }
      match sub with
      | some (.validationError errs orig) =>
          ({ success := false, result := result.map serialize_result,
             stdout := out, stderr := err,
             error := some (submit_error_message errs),
             error_type := some "SubmitValidationError",
             pending_operations := reg.pending_ids,
             submit_result := some (.validationError errs orig) }, st1)
      | _ =>
          ({ success := true, result := result.map serialize_result,
             stdout := out, stderr := err,
             pending_operations := reg.pending_ids,
             submit_result := sub }, st1)
  | .raisedPending opId _ _ st' =>
      ({ success := false, stdout := "", stderr := "",
         error := some ("Pending operation: " ++ opId),
         error_type := some "PendingOperationError",
         pending_operations := reg.pending_ids }, st')
  | .raisedSandbox msg _ _ st' =>
      ({ success := false, stdout := "", stderr := "",
         error := some msg, error_type := some "SandboxError",
         pending_operations := reg.pending_ids }, st')
  | .raisedOther ty msg _ _ st' =>
      ({ success := false, stdout := "",
         stderr := "Traceback (most recent call last): " ++ msg,
         error := some msg, error_type := some ty,
         pending_operations := reg.pending_ids }, st')

/-- Model of a JSON-RPC error object (protocol.py `JsonRpcError`). -/
structure JsonRpcErrorModel where
  code : Int
  message : String

/-- Model of a JSON-RPC response to an `execute` request (protocol.py
`JsonRpcResponse`): exactly one of `result` and `error` is set. -/
structure JsonRpcResponseModel where
  result : Option ExecuteResponse := none
  error : Option JsonRpcErrorModel := none

/-- Models `ReplServer.handle_request` on the `execute` method (main.py
lines 50-92): `_execute` catches `PendingOperationError`,
`CompilationError`, `SandboxError` and every other `Exception` itself
(main.py lines 115-147), so the call returns a value and
`handle_request` wraps it in `JsonRpcResponse.success`; its
exception-to-`error` fallback is unreachable from the sandbox run. -/
def ReplServer.handleExecute (reg : DeferredRegistry)
    (serverSig : Option (List (String × FieldType × Bool)))
    (st : SandboxState) (code : List Step) :
    JsonRpcResponseModel × SandboxState :=
  let r := ReplServer.executeMethod reg serverSig st code
  ({ result := some r.1, error := none }, r.2)

/-- Python string slice `s[:i]`, including the negative-index case. -/
def pySliceTo (s : List Char) (i : Int) : List Char :=
  if 0 ≤ i then s.take i.toNat
  else s.take (((s.length : Int) + i).toNat)

/-- Models `count_tokens` from helpers.py (floor division by 4). -/
def count_tokens (text : String) : Nat :=
  text.length / 4

/-- Models `truncate` from helpers.py (lines 401-406): return the text
unchanged when its length is at most `max_tokens*4`, else the Python
slice `text[: max_chars - 3]` with `"..."` appended. -/
def truncate (text : String) (max_tokens : Int := 1000) : String :=
  let max_chars := max_tokens * 4
  if (text.length : Int) ≤ max_chars then text
  else String.mk (pySliceTo text.toList (max_chars - 3)) ++ "..."

/-- Lookup after a dict assignment finds the assigned value. -/
theorem dictGet_dictSet_self {α : Type} (d : List (String × α)) (k : String) (v : α) :
    dictGet (dictSet d k v) k = some v := by
  induction d with
  | nil => simp [dictGet, dictSet]
  | cons hd tl ih =>
      obtain ⟨k', v'⟩ := hd
      by_cases h : k' = k
      · simp [dictSet, h, dictGet]
      · simp [dictSet, h, dictGet, ih]

/-- C1: `get()` returns the stored result iff the state is resolved,
raises the pending signal (carrying the operation's id) iff the state is
pending, and raises the failed signal iff the state is failed; the
truthiness, length and iteration probes of a pending operation raise the
pending signal, while the string form of a pending operation returns a
placeholder built from the id instead of raising. -/
theorem C1_deferred_get_probes : ∀ (op : DeferredOperation),
    (op.get = .ok op.result ↔ op.state = .resolved) ∧
    (op.get = .pendingSignal op.id ↔ op.state = .pending) ∧
    ((∃ msg, op.get = .failedSignal msg) ↔ op.state = .failed) ∧
    (op.state = .pending →
      op.boolProbe = .raisesPending op.id ∧
      op.lenProbe = .raisesPending op.id ∧
      op.iterProbe = .raisesPending op.id ∧
      op.strProbe = .ok ("<Deferred:" ++ op.id.take 8 ++ ">")) := by
  intro op
  rcases hs : op.state <;>
    simp [DeferredOperation.get, DeferredOperation.boolProbe, DeferredOperation.lenProbe,
      DeferredOperation.iterProbe, DeferredOperation.strProbe, hs]

/-- C1 counterexample: the string form of a pending operation does not
raise the pending signal; it returns the placeholder string. -/
theorem C1_str_probe_counterexample :
    ({ id := "pending1" } : DeferredOperation).state = OperationState.pending ∧
    DeferredOperation.strProbe { id := "pending1" } =
      ProbeResult.ok "<Deferred:pending1>" ∧
    DeferredOperation.strProbe { id := "pending1" } ≠
      ProbeResult.raisesPending "pending1" := by
  refine ⟨rfl, rfl, by decide⟩

/-- C1 witness: the probes of a concrete pending operation. -/
theorem C1_witness :
    DeferredOperation.boolProbe { id := "abc" } = ProbeResult.raisesPending "abc" ∧
    DeferredOperation.lenProbe { id := "abc" } = ProbeResult.raisesPending "abc" ∧
    DeferredOperation.iterProbe { id := "abc" } = ProbeResult.raisesPending "abc" ∧
    DeferredOperation.strProbe { id := "abc" } = ProbeResult.ok "<Deferred:abc>" := by
  have h := (C1_deferred_get_probes { id := "abc" }).2.2.2 rfl
  exact ⟨h.1, h.2.1, h.2.2.1, h.2.2.2⟩

/-- C2: a pending operation resolves to the resolved state or fails to
the failed state; `resolve` and `fail` on an operation that is already
resolved or failed return an error; the registry's `resolve` and `fail`
on an id not present in the registry fail with the not-found
(`KeyError`) error. -/
theorem C2_single_transition : ∀ (op : DeferredOperation) (v : PyVal) (e : String)
    (reg : DeferredRegistry) (opId : String),
    (op.state = .pending →
      op.resolve v = .ok { op with result := v, state := .resolved } ∧
      op.fail e = .ok { op with error := some e, state := .failed }) ∧
    (op.state ≠ .pending →
      (∃ m, op.resolve v = .error m) ∧ (∃ m, op.fail e = .error m)) ∧
    (reg.lookup opId = none →
      reg.resolve opId v = .error (.keyError ("Unknown operation: " ++ opId)) ∧
      reg.fail opId e = .error (.keyError ("Unknown operation: " ++ opId))) := by
  intro op v e reg opId
  refine ⟨?_, ?_, ?_⟩
  · intro h
    constructor <;> simp [DeferredOperation.resolve, DeferredOperation.fail, h]
  · intro h
    exact ⟨⟨"Cannot resolve operation in state " ++ op.state.value,
        by simp [DeferredOperation.resolve, h]⟩,
      ⟨"Cannot fail operation in state " ++ op.state.value,
        by simp [DeferredOperation.fail, h]⟩⟩
  · intro h
    constructor <;> simp [DeferredRegistry.resolve, DeferredRegistry.fail, h]

/-- C2 witness: a concrete pending operation resolves once, a resolved
one refuses a second transition, and an empty registry reports the
unknown id. -/
theorem C2_witness :
    DeferredOperation.resolve { id := "a" } (PyVal.vint 1) =
      .ok { id := "a", result := PyVal.vint 1, state := .resolved } ∧
    (∃ m, DeferredOperation.resolve { id := "a", state := .resolved }
      (PyVal.vint 1) = .error m) ∧
    DeferredRegistry.resolve ⟨[]⟩ "missing" (PyVal.vint 1) =
      .error (.keyError "Unknown operation: missing") := by
  refine ⟨?_, ?_, ?_⟩
  · exact ((C2_single_transition { id := "a" } (PyVal.vint 1) "e" ⟨[]⟩ "missing").1 rfl).1
  · exact ((C2_single_transition { id := "a", state := .resolved }
      (PyVal.vint 1) "e" ⟨[]⟩ "missing").2.1 (by decide)).1
  · exact ((C2_single_transition { id := "a" } (PyVal.vint 1) "e" ⟨[]⟩ "missing").2.2 rfl).1

/-- C3: when executing code raises the pending signal for a registered
pending operation, the `ExecuteResponse` has `success=false`,
`error_type="PendingOperationError"`, and its `pending_operations` is
exactly the registry's (non-empty) list of currently pending ids; the
JSON-RPC response carries the `ExecuteResponse` in its `result` field
and its `error` field is empty. -/
theorem C3_pending_response : ∀ (reg : DeferredRegistry)
    (serverSig : Option (List (String × FieldType × Bool)))
    (st : SandboxState) (code : List Step) (opId o e : String)
    (st' : SandboxState),
    Sandbox.execute { st with signatureRegistration := serverSig } code =
      .raisedPending opId o e st' →
    opId ∈ reg.pending_ids →
    (ReplServer.executeMethod reg serverSig st code).1.success = false ∧
    (ReplServer.executeMethod reg serverSig st code).1.error_type =
      some "PendingOperationError" ∧
    (ReplServer.executeMethod reg serverSig st code).1.pending_operations =
      reg.pending_ids ∧
    (ReplServer.executeMethod reg serverSig st code).1.pending_operations ≠ [] ∧
    (ReplServer.handleExecute reg serverSig st code).1.error = none ∧
    (ReplServer.handleExecute reg serverSig st code).1.result =
      some (ReplServer.executeMethod reg serverSig st code).1 := by
  intro reg serverSig st code opId o e st' hrun hmem
  have hne : reg.pending_ids ≠ [] := by
    intro hnil
    rw [hnil] at hmem
    cases hmem
  simp [ReplServer.executeMethod, ReplServer.handleExecute, hrun, hne]

/-- C3 witness: a registry with one pending operation and code that
probes it. -/
theorem C3_witness :
    (ReplServer.executeMethod ⟨[("op1", { id := "op1" })]⟩ none { }
        [.getOp { id := "op1" }]).1.success = false ∧
    (ReplServer.executeMethod ⟨[("op1", { id := "op1" })]⟩ none { }
        [.getOp { id := "op1" }]).1.error_type = some "PendingOperationError" ∧
    (ReplServer.executeMethod ⟨[("op1", { id := "op1" })]⟩ none { }
        [.getOp { id := "op1" }]).1.pending_operations =
      DeferredRegistry.pending_ids ⟨[("op1", { id := "op1" })]⟩ ∧
    (ReplServer.executeMethod ⟨[("op1", { id := "op1" })]⟩ none { }
        [.getOp { id := "op1" }]).1.pending_operations ≠ [] ∧
    (ReplServer.handleExecute ⟨[("op1", { id := "op1" })]⟩ none { }
        [.getOp { id := "op1" }]).1.error = none ∧
    (ReplServer.handleExecute ⟨[("op1", { id := "op1" })]⟩ none { }
        [.getOp { id := "op1" }]).1.result =
      some (ReplServer.executeMethod ⟨[("op1", { id := "op1" })]⟩ none { }
        [.getOp { id := "op1" }]).1 :=
  C3_pending_response ⟨[("op1", { id := "op1" })]⟩ none { }
    [.getOp { id := "op1" }] "op1" "" "" { } rfl (by decide)

/-- C4: when the pending signal surfaces during execute, the response
carries empty `stdout` and `stderr` (the streams captured before the
suspension point are discarded), while the sandbox namespace is kept
exactly as it was at the suspension point, so side effects (assignments)
completed before the suspension are retained. -/
theorem C4_pending_streams : ∀ (reg : DeferredRegistry)
    (serverSig : Option (List (String × FieldType × Bool)))
    (st : SandboxState) (code : List Step) (opId o e : String)
    (st' : SandboxState),
    (Sandbox.execute { st with signatureRegistration := serverSig } code =
        .raisedPending opId o e st' →
      (ReplServer.executeMethod reg serverSig st code).1.stdout = "" ∧
      (ReplServer.executeMethod reg serverSig st code).1.stderr = "" ∧
      (ReplServer.executeMethod reg serverSig st code).2 = st') ∧
    (∀ (st2 : SandboxState) (out2 err2 : String) (n : String) (v : PyVal)
        (rest : List Step),
      runSteps st2 out2 err2 (.assign n v :: rest) =
        runSteps { st2 with locals := dictSet st2.locals n v } out2 err2 rest) := by
  intro reg serverSig st code opId o e st'
  constructor
  · intro hrun
    simp [ReplServer.executeMethod, hrun]
  · intro st2 out2 err2 n v rest
    rfl

/-- C4 counterexample: output printed before the suspension point is
captured by the sandbox but the response returns empty streams, not the
captured ones. -/
theorem C4_captured_output_counterexample :
    Sandbox.execute { } [.printOut "hi\n", .getOp { id := "op1" }] =
      .raisedPending "op1" "hi\n" "" (Sandbox.reset_submit_state { }) ∧
    (ReplServer.executeMethod ⟨[("op1", { id := "op1" })]⟩ none { }
        [.printOut "hi\n", .getOp { id := "op1" }]).1.stdout = "" ∧
    ("hi\n" : String) ≠ "" := by
  refine ⟨rfl, rfl, by decide⟩

/-- C4 witness: an assignment made before the pending probe is retained
in the namespace the server keeps, while the response streams are empty. -/
theorem C4_witness :
    (ReplServer.executeMethod ⟨[("op1", { id := "op1" })]⟩ none { }
        [.assign "x" (PyVal.vint 1), .getOp { id := "op1" }]).1.stdout = "" ∧
    (ReplServer.executeMethod ⟨[("op1", { id := "op1" })]⟩ none { }
        [.assign "x" (PyVal.vint 1), .getOp { id := "op1" }]).1.stderr = "" ∧
    (ReplServer.executeMethod ⟨[("op1", { id := "op1" })]⟩ none { }
        [.assign "x" (PyVal.vint 1), .getOp { id := "op1" }]).2 =
      { locals := [("x", PyVal.vint 1)] } :=
  (C4_pending_streams ⟨[("op1", { id := "op1" })]⟩ none { }
    [.assign "x" (PyVal.vint 1), .getOp { id := "op1" }] "op1" "" ""
    { locals := [("x", PyVal.vint 1)] }).1 rfl

/-- C5: SUBMIT validation of the scalar field types: a value passes a
string field iff it is a string, an integer field iff it is an integer
and not a boolean, a float field iff it is a float or an integer and not
a boolean, and a boolean field iff it is a boolean; any other value for
these field types records exactly one `type_mismatch` error. -/
theorem C5_scalar_validation : ∀ (name : String) (v : PyVal),
    (validateFieldValue name .stringT v = [] ↔ ∃ s, v = PyVal.vstr s) ∧
    (validateFieldValue name .integerT v = [] ↔ ∃ n, v = PyVal.vint n) ∧
    (validateFieldValue name .floatT v = [] ↔
      (∃ n, v = PyVal.vint n) ∨ (∃ q, v = PyVal.vfloat q)) ∧
    (validateFieldValue name .booleanT v = [] ↔ ∃ b, v = PyVal.vbool b) ∧
    (validateFieldValue name .stringT v = [] ∨
      validateFieldValue name .stringT v =
        [.typeMismatch name .stringT (type_name v) (preview_value v)]) ∧
    (validateFieldValue name .integerT v = [] ∨
      validateFieldValue name .integerT v =
        [.typeMismatch name .integerT (type_name v) (preview_value v)]) ∧
    (validateFieldValue name .floatT v = [] ∨
      validateFieldValue name .floatT v =
        [.typeMismatch name .floatT (type_name v) (preview_value v)]) ∧
    (validateFieldValue name .booleanT v = [] ∨
      validateFieldValue name .booleanT v =
        [.typeMismatch name .booleanT (type_name v) (preview_value v)]) := by
  intro name v
  cases v <;>
    simp [validateFieldValue, pyIsInstStr, pyIsInstInt, pyIsInstBool, pyIsInstIntOrFloat]

/-- C5 counterexample: a plain integer passes a float field, although it
is not a float (its normalized type name is `integer`). -/
theorem C5_float_accepts_int_counterexample :
    validateFieldValue "score" FieldType.floatT (PyVal.vint 5) = [] ∧
    type_name (PyVal.vint 5) = "integer" := by
  constructor
  · simp [validateFieldValue, pyIsInstIntOrFloat, pyIsInstBool]
  · rfl

/-- C6: every execute starts from a reset submit bundle (`submit_result`
null, count zero); a SUBMIT call when the per-execute count is already 1
records a submit result holding the single `multiple_submits` error with
count 2; a plain SUBMIT ends the evaluation (the steps after it are
ignored); and the two-invocation scenario (first signal swallowed by the
code, second not) ends with exactly that `multiple_submits` bundle. -/
theorem C6_submit_reset_and_halt : ∀ (st : SandboxState) (out err : String)
    (code rest : List Step) (v v1 v2 : PyVal),
    (Sandbox.execute st code =
      runSteps { st with submitResult := none, submitCount := 0 } "" "" code) ∧
    ((Sandbox.reset_submit_state st).submitResult = none ∧
      (Sandbox.reset_submit_state st).submitCount = 0) ∧
    (st.submitCount = 1 →
      (Sandbox.submit st v).submitResult =
        some (.validationError [.multipleSubmits 2] (serializeSubmitValue v))) ∧
    (runSteps st out err (.submitCall v :: rest) =
      runSteps st out err [.submitCall v]) ∧
    (∃ r o e stF,
      Sandbox.execute st [.submitCaught v1, .submitCall v2] = .ok r o e stF ∧
      stF.submitResult =
        some (.validationError [.multipleSubmits 2] (serializeSubmitValue v2))) := by
  intro st out err code rest v v1 v2
  refine ⟨rfl, ⟨rfl, rfl⟩, ?_, rfl, ?_⟩
  · intro h
    simp [Sandbox.submit, h]
  · simp only [Sandbox.execute, Sandbox.reset_submit_state, runSteps]
    rcases hsig : st.signatureRegistration with _ | sig
    · simp only [Sandbox.submit, hsig]
      norm_num
      exact ⟨_, _, _, _, ⟨rfl, rfl, rfl, rfl⟩, rfl⟩
    · by_cases hemp : (validateSubmitOutputs sig (serializeSubmitValue v1)).isEmpty
      · simp only [Sandbox.submit, hsig, hemp]
        norm_num
        exact ⟨_, _, _, _, ⟨rfl, rfl, rfl, rfl⟩, rfl⟩
      · simp only [Sandbox.submit, hsig, hemp]
        norm_num
        exact ⟨_, _, _, _, ⟨rfl, rfl, rfl, rfl⟩, rfl⟩

/-- C6 witness: a sandbox whose count is already 1 records the
`multiple_submits` bundle with count 2 on the next SUBMIT. -/
theorem C6_witness :
    (Sandbox.submit { submitCount := 1 } PyVal.vnone).submitResult =
      some (.validationError [.multipleSubmits 2]
        (serializeSubmitValue PyVal.vnone)) ∧
    (∃ r o e stF,
      Sandbox.execute { } [.submitCaught PyVal.vnone, .submitCall (PyVal.vint 3)] =
        .ok r o e stF ∧
      stF.submitResult =
        some (.validationError [.multipleSubmits 2]
          (serializeSubmitValue (PyVal.vint 3)))) := by
  refine ⟨?_, ?_⟩
  · exact (C6_submit_reset_and_halt { submitCount := 1 } "" "" [] []
      PyVal.vnone PyVal.vnone PyVal.vnone).2.2.1 rfl
  · exact (C6_submit_reset_and_halt { } "" "" [] []
      PyVal.vnone PyVal.vnone (PyVal.vint 3)).2.2.2.2

/-- C7: `truncate(text, max_tokens)` returns the text unchanged when its
character count is at most `max_tokens*4`; otherwise it returns the
leading `max_tokens*4 - 3` characters of the text with `"..."` appended
(for `max_tokens ≥ 1`; smaller arguments hit Python's negative-slice
semantics in `pySliceTo`). -/
theorem C7_truncate : ∀ (text : String) (mt : Int), 1 ≤ mt →
    (((text.length : Int) ≤ mt * 4) → truncate text mt = text) ∧
    ((mt * 4 < (text.length : Int)) →
      truncate text mt = String.mk (text.toList.take (mt * 4 - 3).toNat) ++ "...") := by
  intro text mt hmt
  constructor
  · intro hle
    simp [truncate, hle]
  · intro hgt
    have hnle : ¬ ((text.length : Int) ≤ mt * 4) := by omega
    have hpos : (0 : Int) ≤ mt * 4 - 3 := by nlinarith
    simp [truncate, hnle, pySliceTo, hpos]

/-- C7 counterexample: an overlong text keeps `max_tokens*4 - 3` leading
characters, not `max_tokens*4` of them: `truncate("abcde", 1)` is
`"a..."`, not `"abcd..."`. -/
theorem C7_truncate_counterexample :
    truncate "abcde" 1 = "a..." ∧ truncate "abcde" 1 ≠ "abcd" ++ "..." := by
  refine ⟨by decide, by decide⟩

/-- C7 witness: the truncating branch at a concrete text. -/
theorem C7_witness :
    (1 : Int) ≤ 1 ∧
    truncate "abcdefgh" 1 =
      String.mk ("abcdefgh".toList.take ((1 : Int) * 4 - 3).toNat) ++ "..." :=
  ⟨by decide, (C7_truncate "abcdefgh" 1 (by decide)).2 (by decide)⟩

/-- C8: an import inside sandboxed code succeeds exactly for the fixed
allow-list of module names; any other module yields a failed execution
with `error_type="SandboxError"` whose message contains "not allowed". -/
theorem C8_import_policy : ∀ (name : String) (reg : DeferredRegistry)
    (serverSig : Option (List (String × FieldType × Bool))) (st : SandboxState),
    (guardedImport name = .ok () ↔
      name ∈ ["math", "re", "json", "collections", "itertools", "functools",
        "operator", "string", "textwrap", "datetime", "decimal", "fractions",
        "statistics", "random", "copy", "pprint", "dataclasses", "typing",
        "enum", "abc"]) ∧
    (name ∉ allowed_modules →
      (ReplServer.executeMethod reg serverSig st [.importMod name]).1.success = false ∧
      (ReplServer.executeMethod reg serverSig st [.importMod name]).1.error_type =
        some "SandboxError" ∧
      (ReplServer.executeMethod reg serverSig st [.importMod name]).1.error =
        some ("Import of '" ++ name ++ "' is not allowed")) ∧
    ((ReplServer.executeMethod reg serverSig st [.importMod "os"]).1.error =
      some ("Import of 'os' is not allowed") ∧
      ∃ pre post : String,
        "Import of 'os' is not allowed" = pre ++ "not allowed" ++ post) := by
  intro name reg serverSig st
  refine ⟨?_, ?_, ?_, ?_⟩
  · have hL : allowed_modules =
        ["math", "re", "json", "collections", "itertools", "functools",
          "operator", "string", "textwrap", "datetime", "decimal", "fractions",
          "statistics", "random", "copy", "pprint", "dataclasses", "typing",
          "enum", "abc"] := rfl
    rw [← hL]
    by_cases h : name ∈ allowed_modules <;> simp [guardedImport, h]
  · intro h
    have hg : guardedImport name =
        .error ("Import of '" ++ name ++ "' is not allowed") := by
      simp [guardedImport, h]
    simp [ReplServer.executeMethod, Sandbox.execute, runSteps, hg]
  · rfl
  · exact ⟨"Import of 'os' is ", "", by decide⟩

/-- C8 witness: importing `os` fails with the sandbox error. -/
theorem C8_witness :
    (ReplServer.executeMethod ⟨[]⟩ none { } [.importMod "os"]).1.success = false ∧
    (ReplServer.executeMethod ⟨[]⟩ none { } [.importMod "os"]).1.error_type =
      some "SandboxError" ∧
    (ReplServer.executeMethod ⟨[]⟩ none { } [.importMod "os"]).1.error =
      some ("Import of '" ++ "os" ++ "' is not allowed") :=
  (C8_import_policy "os" ⟨[]⟩ none { }).2.1 (by decide)

/-- C9: `set_variable` rejects every name beginning with an underscore
other than `_` itself (the namespace is left untouched, the rejection
happening before any mutation); and in every state, `list_variables`
contains no entry whose name is in the builtin-infrastructure-and-helper
skip set or begins with an underscore. -/
theorem C9_namespace_hygiene : ∀ (st : SandboxState) (name : String) (v : PyVal),
    (pyStartswith name "_" = true → name ≠ "_" →
      Sandbox.set_variable st name v =
        .error ("Cannot set variable with name '" ++ name ++ "'")) ∧
    (∀ entry ∈ Sandbox.list_variables st,
      entry.1 ∉ list_variables_skip ∧ pyStartswith entry.1 "_" = false) := by
  intro st name v
  constructor
  · intro h1 h2
    simp [Sandbox.set_variable, h1, h2]
  · intro entry hmem
    simp only [Sandbox.list_variables, List.mem_filterMap] at hmem
    obtain ⟨kv, _, hkv⟩ := hmem
    by_cases hc : (list_variables_skip.contains kv.1 || pyStartswith kv.1 "_") = true
    · rw [if_pos hc] at hkv
      cases hkv
    · rw [if_neg hc] at hkv
      have hc' := Bool.or_eq_false_iff.mp (Bool.eq_false_iff.mpr hc)
      obtain ⟨hskip, hus⟩ := hc'
      obtain rfl := Option.some.inj hkv
      refine ⟨?_, hus⟩
      simpa [List.elem_iff] using hskip

/-- C9 witness: a concrete underscore name is rejected, and a state
holding a user variable, a helper name and an underscore name lists only
the user variable. -/
theorem C9_witness :
    Sandbox.set_variable { } "_x" PyVal.vnone =
      .error ("Cannot set variable with name '" ++ "_x" ++ "'") ∧
    (∀ entry ∈ Sandbox.list_variables
      { globals := [("llm", PyVal.vother "function"), ("x", PyVal.vint 1),
                    ("_y", PyVal.vnone)] },
      entry.1 ∉ list_variables_skip ∧ pyStartswith entry.1 "_" = false) :=
  ⟨(C9_namespace_hygiene { } "_x" PyVal.vnone).1 (by decide) (by decide),
   (C9_namespace_hygiene
     { globals := [("llm", PyVal.vother "function"), ("x", PyVal.vint 1),
                   ("_y", PyVal.vnone)] } "" PyVal.vnone).2⟩

/-- C10: for every name `set_variable` permits (not beginning with an
underscore, or the single name `_`) and every value, after a successful
`set_variable` the same name reads back the same value through
`get_variable` and `has_variable` is true, in every prior state. -/
theorem C10_variable_roundtrip : ∀ (st : SandboxState) (name : String) (v : PyVal),
    (pyStartswith name "_" = false ∨ name = "_") →
    ∃ st', Sandbox.set_variable st name v = .ok st' ∧
      Sandbox.get_variable st' name = .ok v ∧
      Sandbox.has_variable st' name = true := by
  intro st name v h
  have hcond : (pyStartswith name "_" && name != "_") = false := by
    rcases h with h | h
    · simp [h]
    · simp [h]
  refine ⟨{ st with locals := dictSet st.locals name v, globals := dictSet st.globals name v }, ?_, ?_, ?_⟩
  · simp [Sandbox.set_variable, hcond]
  · simp [Sandbox.get_variable, dictGet_dictSet_self]
  · simp [Sandbox.has_variable, dictGet_dictSet_self]

/-- C10 witness: the round trip at a concrete name and value, starting
from a state that already binds the name in globals. -/
theorem C10_witness :
    ∃ st', Sandbox.set_variable { globals := [("x", PyVal.vnone)] } "x"
        (PyVal.vint 2) = .ok st' ∧
      Sandbox.get_variable st' "x" = .ok (PyVal.vint 2) ∧
      Sandbox.has_variable st' "x" = true :=
  C10_variable_roundtrip { globals := [("x", PyVal.vnone)] } "x" (PyVal.vint 2)
    (Or.inl (by decide))
